import Mathlib

/-!
Shallow embedding of the drivefair.api order/driver engine
(src/server/models/order.js and src/server/models/driver.js).

Modelling conventions:
* A JavaScript exception is `Except.error s` where `s` is the serialized
  error string; `JSON.stringify(error, Object.getOwnPropertyNames(error))`
  is modelled by the string itself.
* `async` persistence and transport calls that may throw are parameters:
  an `Option String` parameter (`none` = the call succeeds, `some e` = the
  call throws `e`), or an explicit `Nat → Except String _` oracle for loads.
* A `try { ... } catch (error) { return wrap(error) }` wrapper is `jsTryE`.
* Mongoose documents are plain structures; `ObjectId`s are `Nat` with value
  equality; a settings object is an association list `List (String × Bool)`
  where a missing key reads as `undefined` (falsy).
* The persisted `Message` collection is threaded as a `List MessageRec`.
-/

namespace DriveFair

/-- `try { body } catch (error) { return handler(error) }` around a whole
function body: a thrown error is converted into a returned value. -/
def jsTryE (body : Except String α) (handler : String → α) : Except String α :=
  match body with
  | .ok a => .ok a
  | .error e => .ok (handler e)

/-- Template interpolation of a possibly-undefined string (js renders
`undefined` for a missing value). -/
def jsShow (s : Option String) : String :=
  match s with
  | none => "undefined"
  | some str => str

/-- JavaScript truthiness of a possibly-undefined string value. -/
def jsTruthy (s : Option String) : Bool :=
  match s with
  | none => false
  | some str => str ≠ ""

/-- `obj[key]` on a settings object, read as a boolean: a missing key is
`undefined`, which is falsy. -/
def lookupFlag (m : List (String × Bool)) (k : Option String) : Bool :=
  match k with
  | none => false
  | some key => ((m.find? (fun p => p.1 = key)).map Prod.snd).getD false

/-- Driver document (driver.js schema): the fields the engine reads. -/
structure Driver where
  id : Nat := 0
  email : String := ""
  password : String := ""
  status : String := "INACTIVE"
  deviceTokens : List String := []
  emailSettings : List (String × Bool) := []
  notificationSettings : List (String × Bool) := [("REQUEST_DRIVER", true), ("CHAT", true)]
  orders : List Nat := []
deriving DecidableEq, Repr

/-- The `data` payload attached to a Message (string-valued fields; the
fields only `requestDriver` sets are optional). -/
structure MessageData where
  orderId : String
  messageType : String
  openModal : String
  businessName : Option String := none
  customerName : Option String := none
  businessAddress : Option String := none
  customerAddress : Option String := none
  tip : Option String := none
deriving DecidableEq, Repr

/-- A persisted Message record (message.js is out of scope; the fields are
exactly those `sendMessage` sets). -/
structure MessageRec where
  messageType : String
  recipient : Nat
  recipientModel : String
  sender : Nat
  senderModel : String
  title : String
  body : String
  data : MessageData
  deviceTokens : List String
deriving DecidableEq, Repr

/-- The argument object of `driverSchema.methods.sendMessage`. -/
structure SendArgs where
  setting : Option String := none
  title : String := ""
  body : String := ""
  data : MessageData
  senderId : Nat := 0
  senderModel : String := ""
deriving DecidableEq, Repr

/-- The value `sendMessage` (and `requestDriver`, which forwards it)
returns: a persisted message, a business refusal
`\x7berror: \x7bmessage, status?\x7d\x7d`, or a wrapped failure
`\x7berror: \x7berrorString, functionName, status?\x7d\x7d`. -/
inductive SendResult where
  | message (m : MessageRec)
  | refusal (message : String) (status : Option Nat)
  | wrapped (errorString : String) (functionName : String) (status : Option Nat)
deriving DecidableEq, Repr

/-- `new Message({messageType: data.messageType, recipient: this._id, ...})`. -/
def mkMessage (d : Driver) (a : SendArgs) : MessageRec :=
  { messageType := a.data.messageType
    recipient := d.id
    recipientModel := "Driver"
    sender := a.senderId
    senderModel := a.senderModel
    title := a.title
    body := a.body
    data := a.data
    deviceTokens := d.deviceTokens }

/-- The `try` block of `sendMessage`: gate on
`setting && this.notificationSettings[setting]`, persist on pass
(`message.save()` may throw), refuse otherwise. -/
def sendMessageBody (msgSaveErr : Option String) (store : List MessageRec)
    (d : Driver) (a : SendArgs) : Except String (SendResult × List MessageRec) :=
  if jsTruthy a.setting && lookupFlag d.notificationSettings a.setting then
    match msgSaveErr with
    | some e => .error e
    | none =>
      let m := mkMessage d a
      .ok (.message m, store ++ [m])
  else
    .ok (.refusal ("Driver has turned off notification setting: " ++ jsShow a.setting)
          (some 200), store)

/-- `driverSchema.methods.sendMessage` (driver.js lines 76-112). -/
def sendMessage (msgSaveErr : Option String) (store : List MessageRec)
    (d : Driver) (a : SendArgs) : Except String (SendResult × List MessageRec) :=
  jsTryE (sendMessageBody msgSaveErr store d a)
    (fun e => (.wrapped e "sendMessage" (some 200), store))

/-- Argument object of the external mail transport `Communications.sendMail`
(`toAddr` models its `to` field; `to` is reserved in Lean). -/
structure MailArgs where
  toAddr : String
  subject : String
  text : String
  html : String
deriving DecidableEq, Repr

/-- Value returned by `sendEmail`: delivery result, refusal, or wrapped failure. -/
inductive EmailResult where
  | mail (deliveryResult : String)
  | refusal (message : String) (status : Option Nat)
  | wrapped (errorString : String) (functionName : String) (status : Option Nat)
deriving DecidableEq, Repr

/-- The `try` block of `sendEmail`: gate on
`this.emailSettings[setting] || setting === "ACCOUNT"`, then delegate to the
mail transport (which may throw). -/
def sendEmailBody (sendMail : MailArgs → Except String String) (d : Driver)
    (setting : Option String) (subject text html : String) : Except String EmailResult :=
  if lookupFlag d.emailSettings setting || setting == some "ACCOUNT" then
    match sendMail { toAddr := d.email, subject := subject, text := text, html := html } with
    | .ok r => .ok (.mail r)
    | .error e => .error e
  else
    .ok (.refusal ("Driver has turned off email setting: " ++ jsShow setting) (some 200))

/-- `driverSchema.methods.sendEmail` (driver.js lines 46-74). -/
def sendEmail (sendMail : MailArgs → Except String String) (d : Driver)
    (setting : Option String) (subject text html : String) : Except String EmailResult :=
  jsTryE (sendEmailBody sendMail d setting subject text html)
    (fun e => .wrapped e "sendEmail" (some 200))

/-- Value returned by `toggleStatus`: the 418 refusal object or `this.status`. -/
inductive ToggleResult where
  | refusal (message : String) (functionName : String) (status : Nat)
  | status (s : String)
deriving DecidableEq, Repr

/-- `driverSchema.methods.toggleStatus` (driver.js lines 114-127). No
try/catch: a throwing `this.save()` propagates. Returns the result together
with the driver state after the call. -/
def toggleStatus (saveErr : Option String) (d : Driver) (newStatus : String) :
    Except String (ToggleResult × Driver) :=
  if d.orders.length ≠ 0 && newStatus == "INACTIVE" then
    .ok (.refusal "There are still active orders on your route!" "toggleStatus" 418, d)
  else
    match saveErr with
    | some e => .error e
    | none => .ok (.status newStatus, { d with status := newStatus })

/-- `driverSchema.methods.addDeviceToken` (driver.js lines 129-134):
`pull(token)` removes every occurrence, `push(token)` appends; `save()` may
throw (no try/catch). Returns `this`. -/
def addDeviceToken (saveErr : Option String) (d : Driver) (token : String) :
    Except String Driver :=
  let d1 : Driver :=
    { d with deviceTokens := (d.deviceTokens.filter (fun t => t != token)) ++ [token] }
  match saveErr with
  | some e => .error e
  | none => .ok d1

/-- `driverSchema.methods.validatePassword` (driver.js lines 42-44):
`bcrypt.compare(this.password, password)` — the stored password is passed in
the first (plaintext) position, the candidate in the second (hash) position. -/
def validatePassword (compare : String → String → Bool) (d : Driver)
    (password : String) : Bool :=
  compare d.password password

/-- An order document loaded while populating `driver.orders`: only its
`vendor` reference is read. -/
structure PopOrder where
  vendor : Nat
deriving DecidableEq, Repr

/-- A populated vendor document; its `address` stays an unpopulated id. -/
structure Vendor where
  id : Nat := 0
  businessName : String := ""
  address : Nat := 0
deriving DecidableEq, Repr

/-- A populated customer document. -/
structure Customer where
  firstName : String := ""
  lastName : String := ""
deriving DecidableEq, Repr

/-- Order document as read by the driver methods (order.js schema: the
`address` field is a list of Address ids). `tip` has no default. -/
structure OrderDoc where
  id : Nat := 0
  driver : Option Nat := none
  vendor : Nat := 0
  customer : Nat := 0
  address : List Nat := []
  tip : Option Nat := none
deriving DecidableEq, Repr

/-- External collaborators of `requestDriver`: document loads used by
`populate` (each may throw) and the opaque `getAddressString` utility,
which receives an unpopulated id for `vendor.address` and a populated
array for `order.address`. -/
structure ReqEnv where
  loadOrder : Nat → Except String PopOrder
  loadVendor : Nat → Except String Vendor
  loadCustomer : Nat → Except String Customer
  formatAddr : Nat → String
  formatAddrList : List Nat → String

/-- `customer.lastName[0]` interpolated: first character, or `undefined`
when the string is empty. -/
def firstCharOrUndefined (s : String) : String :=
  if s.isEmpty then "undefined" else s.take 1

/-- `populate("orders").execPopulate()`: load every referenced order
document, failing as soon as one load throws. -/
def loadAll (load : Nat → Except String PopOrder) : List Nat → Except String (List PopOrder)
  | [] => .ok []
  | i :: is =>
    match load i with
    | .error e => .error e
    | .ok po =>
      match loadAll load is with
      | .error e => .error e
      | .ok pos => .ok (po :: pos)

/-- Steps `if (this.orders.length) { await this.populate("orders")...;
if (this.orders[0].vendor !== order.vendor) ... }` of `requestDriver`:
only the FIRST populated order is compared. -/
def vendorCheck (env : ReqEnv) (d : Driver) (order : OrderDoc) :
    Except String (Option SendResult) :=
  if d.orders.length = 0 then .ok none
  else
    match loadAll env.loadOrder d.orders with
    | .error e => .error e
    | .ok [] => .error "TypeError: Cannot read properties of undefined"
    | .ok (po :: _) =>
      if po.vendor ≠ order.vendor then
        .ok (some (.refusal "Driver is currently delivering for another vendor." none))
      else .ok none

/-- The `try` block of `requestDriver` (driver.js lines 137-177). -/
def requestDriverBody (env : ReqEnv) (msgSaveErr : Option String)
    (store : List MessageRec) (d : Driver) (order : OrderDoc) :
    Except String (SendResult × List MessageRec) :=
  if order.driver.isSome then
    .ok (.refusal "Order already has a driver assigned." none, store)
  else
    match vendorCheck env d order with
    | .error e => .error e
    | .ok (some r) => .ok (r, store)
    | .ok none =>
      if d.status == "INACTIVE" then
        .ok (.refusal "Driver is offline." none, store)
      else
        match env.loadVendor order.vendor with
        | .error e => .error e
        | .ok vendor =>
          match env.loadCustomer order.customer with
          | .error e => .error e
          | .ok customer =>
            match order.tip with
            | none => .error "TypeError: Cannot read properties of undefined"
            | some tip =>
              sendMessage msgSaveErr store d
                { setting := some "REQUEST_DRIVER"
                  title := "Incoming Order!"
                  body := "New order from " ++ vendor.businessName ++ "."
                  data :=
                    { orderId := toString order.id
                      messageType := "REQUEST_DRIVER"
                      openModal := "true"
                      businessName := some vendor.businessName
                      customerName := some (customer.firstName ++ " " ++
                        firstCharOrUndefined customer.lastName)
                      businessAddress := some (env.formatAddr vendor.address)
                      customerAddress := some (env.formatAddrList order.address)
                      tip := some (toString tip) }
                  senderId := vendor.id
                  senderModel := "Vendor" }

/-- `driverSchema.methods.requestDriver` (driver.js lines 136-185):
the whole body sits in try/catch; a caught error is returned as
`\x7berror: \x7berrorString, functionName: "requestDriver"\x7d\x7d`. -/
def requestDriver (env : ReqEnv) (msgSaveErr : Option String)
    (store : List MessageRec) (d : Driver) (order : OrderDoc) :
    Except String (SendResult × List MessageRec) :=
  jsTryE (requestDriverBody env msgSaveErr store d order)
    (fun e => (.wrapped e "requestDriver" none, store))

/-- Value returned by `notifyOrderReady` / `notifyOrderCanceled`: the
sendMessage result is awaited but NOT returned, so the non-exception path
yields `undefined`. -/
inductive NotifyResult where
  | undef
  | wrapped (errorString : String) (functionName : String)
deriving DecidableEq, Repr

/-- The sendMessage argument object built by `notifyOrderReady`. -/
def orderReadyArgs (vendor : Vendor) (order : OrderDoc) : SendArgs :=
  { setting := some "REQUEST_DRIVER"
    title := "Order up!"
    body := "The order at " ++ vendor.businessName ++ " is ready."
    data := { orderId := toString order.id, messageType := "ORDER_READY", openModal := "false" }
    senderId := vendor.id
    senderModel := "Vendor" }

/-- `driverSchema.methods.notifyOrderReady` (driver.js lines 187-208). -/
def notifyOrderReady (msgSaveErr : Option String) (store : List MessageRec)
    (d : Driver) (vendor : Vendor) (order : OrderDoc) :
    Except String (NotifyResult × List MessageRec) :=
  jsTryE
    (match sendMessage msgSaveErr store d (orderReadyArgs vendor order) with
     | .error e => .error e
     | .ok (_, store2) => .ok (.undef, store2))
    (fun e => (.wrapped e "notifyOrderReady", store))

/-- The sendMessage argument object built by `notifyOrderCanceled`. -/
def orderCanceledArgs (vendor : Vendor) (order : OrderDoc) : SendArgs :=
  { setting := some "REQUEST_DRIVER"
    title := "Order canceled."
    body := "The order for " ++ vendor.businessName ++ " has been canceled."
    data := { orderId := toString order.id, messageType := "ORDER_CANCELED", openModal := "false" }
    senderId := vendor.id
    senderModel := "Vendor" }

/-- `driverSchema.methods.notifyOrderCanceled` (driver.js lines 210-231). -/
def notifyOrderCanceled (msgSaveErr : Option String) (store : List MessageRec)
    (d : Driver) (vendor : Vendor) (order : OrderDoc) :
    Except String (NotifyResult × List MessageRec) :=
  jsTryE
    (match sendMessage msgSaveErr store d (orderCanceledArgs vendor order) with
     | .error e => .error e
     | .ok (_, store2) => .ok (.undef, store2))
    (fun e => (.wrapped e "notifyOrderCanceled", store))

/-- A persisted OrderItem record (orderItemSchema): id and computed price. -/
structure OItem where
  id : Nat
  price : Int
deriving DecidableEq, Repr

/-- The global OrderItem collection plus a fresh-id counter. -/
structure Db where
  items : List OItem := []
  nextId : Nat := 0
deriving DecidableEq, Repr

/-- Order document state as mutated by the order methods. -/
structure OrderSt where
  orderItems : List Nat := []
  total : Int := 0
  disposition : String := "NEW"
deriving DecidableEq, Repr

/-- A modification entry `options` field: either a single option object
(modelled by its numeric price) or an array of option objects. -/
inductive OptionsVal where
  | obj (price : Int)
  | arr (prices : List Int)
deriving DecidableEq, Repr

/-- One modification entry: an object with an `options` field. -/
structure ModEntry where
  options : OptionsVal
deriving DecidableEq, Repr

/-- The `item.modifications` value: a single plain object (which has no
`forEach` method) or an array of modification entries. -/
inductive ModificationsVal where
  | obj (m : ModEntry)
  | arr (ms : List ModEntry)
deriving DecidableEq, Repr

/-- The argument of `addOrderItem`: the populated menu item base price and
the modifications structure. -/
structure NewItem where
  menuItemPrice : Int
  modifications : ModificationsVal
deriving DecidableEq, Repr

/-- One iteration of the `forEach` over modifications: branch on
`Array.isArray(options)`. -/
def modApply (acc : Int) (m : ModEntry) : Int :=
  match m.options with
  | .arr prices => prices.foldl (fun a p => a + p) acc
  | .obj price => acc + price

/-- Price computation of `addOrderItem` lines 30-40:
`item.price = item.menuItem.price` then `item.modifications.forEach(...)`.
Calling `.forEach` on a non-array object throws a TypeError. -/
def computeItemPrice (basePrice : Int) (mods : ModificationsVal) : Except String Int :=
  match mods with
  | .obj _ => .error "TypeError: item.modifications.forEach is not a function"
  | .arr ms => .ok (ms.foldl modApply basePrice)

/-- `orderSchema.methods.addOrderItem` (order.js lines 29-45). No try/catch:
a throwing `save()` (of the item or of the order) propagates. -/
def addOrderItem (itemSaveErr orderSaveErr : Option String) (db : Db)
    (o : OrderSt) (item : NewItem) : Except String (Db × OrderSt) :=
  match computeItemPrice item.menuItemPrice item.modifications with
  | .error e => .error e
  | .ok price =>
    match itemSaveErr with
    | some e => .error e
    | none =>
      let newItem : OItem := { id := db.nextId, price := price }
      let db2 : Db := { items := db.items ++ [newItem], nextId := db.nextId + 1 }
      let o2 : OrderSt :=
        { o with orderItems := o.orderItems ++ [newItem.id], total := o.total + price }
      match orderSaveErr with
      | some e => .error e
      | none => .ok (db2, o2)

/-- `orderSchema.methods.removeOrderItem` (order.js lines 47-53):
`OrderItem.findById` searches the GLOBAL collection; `this.orderItems.pull`
removes every matching reference (a no-op when absent); `orderItem.price` on
a `null` lookup throws. No try/catch. -/
def removeOrderItem (itemRemoveErr orderSaveErr : Option String) (db : Db)
    (o : OrderSt) (itemId : Nat) : Except String (Db × OrderSt) :=
  match db.items.find? (fun it => it.id == itemId) with
  | none => .error "TypeError: Cannot read properties of null"
  | some orderItem =>
    let o2 : OrderSt :=
      { o with orderItems := o.orderItems.filter (fun i => i != itemId)
               total := o.total - orderItem.price }
    match itemRemoveErr with
    | some e => .error e
    | none =>
      let db2 : Db := { db with items := db.items.filter (fun it => it.id != itemId) }
      match orderSaveErr with
      | some e => .error e
      | none => .ok (db2, o2)

/-- Value returned by `changeDisposition`: the saved order, or the
`\x7berror, functionName: "changeDisposition"\x7d` object (raw error at the
top level, unlike the other wrappers). -/
inductive ChangeDispResult where
  | saved (o : OrderSt)
  | errObj (error : String) (functionName : String)
deriving DecidableEq, Repr

/-- `orderSchema.methods.changeDisposition` (order.js lines 55-62): mutate
unconditionally, then save inside try/catch. Returns the result together
with the order state after the call (mutated even when save throws). -/
def changeDisposition (saveErr : Option String) (o : OrderSt) (d : String) :
    Except String (ChangeDispResult × OrderSt) :=
  jsTryE
    (let o2 : OrderSt := { o with disposition := d }
     match saveErr with
     | some e => .error e
     | none => .ok (.saved o2, o2))
    (fun e => (.errObj e "changeDisposition", { o with disposition := d }))

/-- One call in a sequence of item-ledger operations, carrying the outcome
of each persistence call it performs. -/
inductive OrderOp where
  | add (itemSaveErr orderSaveErr : Option String) (item : NewItem)
  | remove (itemRemoveErr orderSaveErr : Option String) (itemId : Nat)
deriving DecidableEq, Repr

/-- Run a sequence of `addOrderItem` / `removeOrderItem` calls; the sequence
fails as soon as one call throws. -/
def runOps : List OrderOp → Db → OrderSt → Except String (Db × OrderSt)
  | [], db, o => .ok (db, o)
  | op :: ops, db, o =>
    match (match op with
           | .add ie oe item => addOrderItem ie oe db o item
           | .remove re oe itemId => removeOrderItem re oe db o itemId) with
    | .error e => .error e
    | .ok (db2, o2) => runOps ops db2 o2

/-- Price of the OrderItem referenced by id `i` (0 for a dangling reference). -/
def itemPriceOf (db : Db) (i : Nat) : Int :=
  ((db.items.find? (fun it => it.id == i)).map OItem.price).getD 0

/-- Sum of the prices of the OrderItems currently referenced by the order. -/
def orderItemsPriceSum (db : Db) (o : OrderSt) : Int :=
  (o.orderItems.map (itemPriceOf db)).sum

/-- The order/store consistency invariant: the order references exactly the
stored items (in order), the total is their price sum, ids are distinct,
and every stored id is below the fresh-id counter. -/
def Consistent (db : Db) (o : OrderSt) : Prop :=
  o.orderItems = db.items.map OItem.id ∧
  o.total = (db.items.map OItem.price).sum ∧
  (db.items.map OItem.id).Nodup ∧
  ∀ it ∈ db.items, it.id < db.nextId

instance (db : Db) (o : OrderSt) : Decidable (Consistent db o) := by
  unfold Consistent
  infer_instance

/-- The five-value disposition enumeration of the order schema. -/
def dispositions : List String := ["NEW", "PAID", "COMPLETE", "CANCELED", "DELIVERED"]

/-- Sum of the numeric prices of the selected options of one modification
entry, normalizing the single-object and list shapes (the quantity the spec
says each entry contributes). -/
def modSum (m : ModEntry) : Int :=
  match m.options with
  | .arr prices => prices.sum
  | .obj price => price

/- ------------------------------------------------------------------ -/
/- Shared lemmas                                                       -/
/- ------------------------------------------------------------------ -/

lemma jsTryE_ok (b : Except String α) (h : String → α) : ∃ a, jsTryE b h = .ok a := by
  cases b with
  | ok a => exact ⟨a, rfl⟩
  | error e => exact ⟨h e, rfl⟩

lemma sendMessage_ok (msgSaveErr : Option String) (store : List MessageRec)
    (d : Driver) (a : SendArgs) : ∃ p, sendMessage msgSaveErr store d a = .ok p :=
  jsTryE_ok _ _

/- ------------------------------------------------------------------ -/
/- C10: validatePassword argument order                                -/
/- ------------------------------------------------------------------ -/

/-- C10: `validatePassword(p)` calls the credential verifier as
`bcrypt.compare(this.password, password)`: the stored password field goes in
the first (plaintext) position and the candidate `p` in the second (hash)
position, and the operation returns whatever the verifier yields for that
swapped pair.  The second conjunct exhibits a verifier for which the swap is
observable. -/
theorem validatePassword_swaps_arguments :
    (∀ (compare : String → String → Bool) (d : Driver) (p : String),
        validatePassword compare d p = compare d.password p) ∧
    (∃ (compare : String → String → Bool) (d : Driver) (p : String),
        validatePassword compare d p ≠ compare p d.password) := by
  refine ⟨fun _ _ _ => rfl, ⟨fun plain _ => plain == "A", { password := "A" }, "B", ?_⟩⟩
  decide

/- ------------------------------------------------------------------ -/
/- C9: addDeviceToken de-dup + move-to-end, idempotent                 -/
/- ------------------------------------------------------------------ -/

lemma filter_bne_append_self (l : List String) (t : String) :
    ((l.filter (fun s => s != t)) ++ [t]).filter (fun s => s != t) =
      l.filter (fun s => s != t) := by
  rw [List.filter_append, List.filter_filter]
  simp

/-- C9: after `addDeviceToken(driver, t)` the deviceTokens list contains
exactly one occurrence of `t`, positioned last, and a second call with the
same `t` returns the same driver state (idempotent). -/
theorem addDeviceToken_dedup_last_idempotent :
    ∀ (d : Driver) (t : String), ∃ d2 : Driver,
      addDeviceToken none d t = .ok d2 ∧
      d2.deviceTokens.count t = 1 ∧
      d2.deviceTokens.getLast? = some t ∧
      addDeviceToken none d2 t = .ok d2 := by
  intro d t
  refine ⟨{ d with deviceTokens := (d.deviceTokens.filter (fun s => s != t)) ++ [t] },
    rfl, ?_, ?_, ?_⟩
  · rw [List.count_append]
    have h0 : (d.deviceTokens.filter (fun s => s != t)).count t = 0 := by
      rw [List.count_eq_zero]
      intro hmem
      have := List.of_mem_filter hmem
      simp at this
    simp [h0, List.count_singleton]
  · simp
  · show Except.ok _ = Except.ok _
    congr 1
    simp only
    rw [filter_bne_append_self]

/- ------------------------------------------------------------------ -/
/- C8: sendMessage with absent/falsy setting refuses, persists nothing -/
/- ------------------------------------------------------------------ -/

/-- C8: for every recipient and every call to `sendMessage` in which
`setting` is absent (`none`, interpolated as `undefined`) or falsy (the
empty string), no Message is persisted (the store is unchanged) and the
operation returns the structured refusal
`\x7berror: \x7bmessage: "Driver has turned off notification setting: <setting>",
status: 200\x7d\x7d`. -/
theorem sendMessage_falsy_setting_refuses :
    ∀ (msgSaveErr : Option String) (store : List MessageRec) (d : Driver)
      (title body : String) (data : MessageData) (senderId : Nat) (senderModel : String),
      (sendMessage msgSaveErr store d
          { setting := none, title := title, body := body, data := data,
            senderId := senderId, senderModel := senderModel } =
        .ok (.refusal "Driver has turned off notification setting: undefined" (some 200),
             store)) ∧
      (sendMessage msgSaveErr store d
          { setting := some "", title := title, body := body, data := data,
            senderId := senderId, senderModel := senderModel } =
        .ok (.refusal "Driver has turned off notification setting: " (some 200), store)) := by
  intro msgSaveErr store d title body data senderId senderModel
  constructor <;> rfl

/- ------------------------------------------------------------------ -/
/- C7: toggleStatus INACTIVE with active orders                        -/
/- ------------------------------------------------------------------ -/

/-- C7: for every driver whose `orders` list is non-empty,
`toggleStatus(driver, "INACTIVE")` returns the refusal
`\x7berror: \x7bmessage: "There are still active orders on your route!",
functionName: "toggleStatus", status: 418\x7d\x7d` and leaves the driver state
(in particular `status`) unchanged, regardless of the persistence layer. -/
theorem toggleStatus_active_orders_refusal :
    ∀ (saveErr : Option String) (d : Driver), d.orders ≠ [] →
      toggleStatus saveErr d "INACTIVE" =
        .ok (.refusal "There are still active orders on your route!" "toggleStatus" 418, d) := by
  intro saveErr d h
  unfold toggleStatus
  have hlen : d.orders.length ≠ 0 := by
    simpa [List.length_eq_zero] using h
  simp [hlen]

theorem toggleStatus_active_orders_refusal_witness :
    toggleStatus none { orders := [1] } "INACTIVE" =
      .ok (.refusal "There are still active orders on your route!" "toggleStatus" 418,
           { orders := [1] }) :=
  toggleStatus_active_orders_refusal none { orders := [1] } (by decide)

/- ------------------------------------------------------------------ -/
/- C5: disposition is NOT confined to the five-value set               -/
/- ------------------------------------------------------------------ -/

/-- C5 counterexample: `changeDisposition(order, "GARBAGE")` succeeds and
leaves `order.disposition = "GARBAGE"`, which is outside
\x7bNEW, PAID, COMPLETE, CANCELED, DELIVERED\x7d — the schema spells the
enum option `enums`, so nothing enforces the five-value set. -/
theorem changeDisposition_escapes_enum_counterexample :
    changeDisposition none { } "GARBAGE" =
      .ok (.saved { disposition := "GARBAGE" }, { disposition := "GARBAGE" }) ∧
    "GARBAGE" ∉ dispositions := by
  exact ⟨rfl, by decide⟩

/-- C5 (amended): `changeDisposition(order, newDisposition)` unconditionally
sets `order.disposition` to exactly its argument (whether or not the save
throws), so the disposition stays in the five-value set only when the
argument lies in it; the schema default is `NEW`. -/
theorem changeDisposition_sets_argument :
    (∀ (saveErr : Option String) (o : OrderSt) (d : String), ∃ r,
        changeDisposition saveErr o d = .ok (r, { o with disposition := d })) ∧
    ({ } : OrderSt).disposition = "NEW" := by
  constructor
  · intro saveErr o d
    cases saveErr with
    | none => exact ⟨.saved { o with disposition := d }, rfl⟩
    | some e => exact ⟨.errObj e "changeDisposition", rfl⟩
  · rfl

/- ------------------------------------------------------------------ -/
/- C4: addOrderItem pricing over the modifications shapes              -/
/- ------------------------------------------------------------------ -/

lemma foldl_add_eq (l : List Int) (a : Int) :
    l.foldl (fun x y => x + y) a = a + l.sum := by
  induction l generalizing a with
  | nil => simp
  | cons p ps ih =>
    rw [List.foldl_cons, ih, List.sum_cons]
    ring

lemma foldl_modApply_eq (ms : List ModEntry) (b : Int) :
    ms.foldl modApply b = b + (ms.map modSum).sum := by
  induction ms generalizing b with
  | nil => simp
  | cons m ms ih =>
    rw [List.foldl_cons, ih, List.map_cons, List.sum_cons]
    have hm : modApply b m = b + modSum m := by
      cases h : m.options with
      | arr prices => simp [modApply, modSum, h, foldl_add_eq]
      | obj price => simp [modApply, modSum, h]
    rw [hm]
    ring

/-- C4 counterexample: when `item.modifications` is a single
modification-option object rather than a list, `addOrderItem` does not
normalize it — `item.modifications.forEach` throws a TypeError (which,
lacking a try/catch, propagates), instead of yielding `item.price = 12`. -/
theorem addOrderItem_single_object_modifications_throws :
    addOrderItem none none { } { }
        { menuItemPrice := 10, modifications := .obj { options := .obj 2 } } =
      .error "TypeError: item.modifications.forEach is not a function" := rfl

/-- C4 (amended): for every item whose `modifications` is a LIST of
modification entries — each entry's `options` being either a single option
object or a list of option objects (these two shapes are the ones
normalized) — `addOrderItem` sets the new OrderItem price to the menu item
base price plus the sum of all selected option prices, appends it to
`order.orderItems`, and increases `order.total` by that price; a
single-object `modifications` instead throws.  In particular base price 10
with modifications list `[\x7boptions: [\x7bprice: 2\x7d, \x7bprice: 1\x7d]\x7d]`
yields price 13 and increases the total by 13. -/
theorem addOrderItem_list_modifications_price :
    (∀ (db : Db) (o : OrderSt) (base : Int) (ms : List ModEntry),
      addOrderItem none none db o { menuItemPrice := base, modifications := .arr ms } =
        .ok ({ items := db.items ++ [{ id := db.nextId, price := base + (ms.map modSum).sum }],
               nextId := db.nextId + 1 },
             { o with orderItems := o.orderItems ++ [db.nextId],
                      total := o.total + (base + (ms.map modSum).sum) })) ∧
    (addOrderItem none none { } { }
        { menuItemPrice := 10, modifications := .arr [{ options := .arr [2, 1] }] } =
      .ok ({ items := [{ id := 0, price := 13 }], nextId := 1 },
           { orderItems := [0], total := 13, disposition := "NEW" })) := by
  constructor
  · intro db o base ms
    simp [addOrderItem, computeItemPrice, foldl_modApply_eq]
  · rfl

/- ------------------------------------------------------------------ -/
/- C1: exception propagation across the public operations              -/
/- ------------------------------------------------------------------ -/

/-- C1 counterexample: `addOrderItem` has no try/catch, so when the
OrderItem save throws, the exception propagates to the caller instead of
being returned as a structured error shape. -/
theorem addOrderItem_propagates_save_exception :
    addOrderItem (some "MongoError: connection lost") none { } { }
        { menuItemPrice := 10, modifications := .arr [] } =
      .error "MongoError: connection lost" := rfl

/-- C1 (amended): the operations whose whole body sits in try/catch —
`sendMessage`, `sendEmail`, `requestDriver`, `notifyOrderReady`,
`notifyOrderCanceled`, and `changeDisposition` — never propagate an
exception: for every input and every outcome of the persistence/transport
calls they return a value.  (`addOrderItem`, `removeOrderItem`,
`toggleStatus` and `addDeviceToken` have no such wrapper and do propagate
persistence exceptions; see the counterexample.) -/
theorem wrapped_operations_never_throw :
    (∀ (msgSaveErr : Option String) (store : List MessageRec) (d : Driver) (a : SendArgs),
        ∃ r, sendMessage msgSaveErr store d a = .ok r) ∧
    (∀ (sendMail : MailArgs → Except String String) (d : Driver)
        (setting : Option String) (subject text html : String),
        ∃ r, sendEmail sendMail d setting subject text html = .ok r) ∧
    (∀ (env : ReqEnv) (msgSaveErr : Option String) (store : List MessageRec)
        (d : Driver) (order : OrderDoc),
        ∃ r, requestDriver env msgSaveErr store d order = .ok r) ∧
    (∀ (msgSaveErr : Option String) (store : List MessageRec) (d : Driver)
        (vendor : Vendor) (order : OrderDoc),
        ∃ r, notifyOrderReady msgSaveErr store d vendor order = .ok r) ∧
    (∀ (msgSaveErr : Option String) (store : List MessageRec) (d : Driver)
        (vendor : Vendor) (order : OrderDoc),
        ∃ r, notifyOrderCanceled msgSaveErr store d vendor order = .ok r) ∧
    (∀ (saveErr : Option String) (o : OrderSt) (disp : String),
        ∃ r, changeDisposition saveErr o disp = .ok r) :=
  ⟨fun _ _ _ _ => jsTryE_ok _ _,
   fun _ _ _ _ _ _ => jsTryE_ok _ _,
   fun _ _ _ _ _ => jsTryE_ok _ _,
   fun _ _ _ _ _ => jsTryE_ok _ _,
   fun _ _ _ _ _ => jsTryE_ok _ _,
   fun _ _ _ => jsTryE_ok _ _⟩

/- ------------------------------------------------------------------ -/
/- C6: notifyOrderReady / notifyOrderCanceled                          -/
/- ------------------------------------------------------------------ -/

/-- C6 counterexample: with a recipient whose default settings allow
`REQUEST_DRIVER` and a succeeding save, the dispatcher returns the persisted
Message, but `notifyOrderReady` returns `undefined` — the `await
this.sendMessage(...)` result is never `return`ed, so the operation does NOT
return what the dispatcher returns. -/
theorem notifyOrderReady_returns_undefined_counterexample :
    (notifyOrderReady none [] { } { businessName := "V" } { id := 5 } =
      .ok (.undef, [mkMessage { } (orderReadyArgs { businessName := "V" } { id := 5 })])) ∧
    (sendMessage none [] { } (orderReadyArgs { businessName := "V" } { id := 5 }) =
      .ok (.message (mkMessage { } (orderReadyArgs { businessName := "V" } { id := 5 })),
           [mkMessage { } (orderReadyArgs { businessName := "V" } { id := 5 })])) := by
  constructor <;> rfl

/-- C6 (amended): `notifyOrderReady` and `notifyOrderCanceled` dispatch via
`sendMessage` under the `REQUEST_DRIVER` setting with the vendor as sender
(same dispatch shape as `requestDriver`), but DISCARD the dispatcher's
result: on the non-exception path they return `undefined` (while the message
store still reflects whatever the dispatcher persisted); only unexpected
exceptions are wrapped as `\x7berror: \x7berrorString, functionName\x7d\x7d`. -/
theorem notify_operations_discard_dispatcher_result :
    ∀ (msgSaveErr : Option String) (store : List MessageRec) (d : Driver)
      (vendor : Vendor) (order : OrderDoc),
      ((orderReadyArgs vendor order).setting = some "REQUEST_DRIVER" ∧
       (orderReadyArgs vendor order).senderId = vendor.id ∧
       (orderReadyArgs vendor order).senderModel = "Vendor" ∧
       ∃ r store2,
         sendMessage msgSaveErr store d (orderReadyArgs vendor order) = .ok (r, store2) ∧
         notifyOrderReady msgSaveErr store d vendor order = .ok (.undef, store2)) ∧
      ((orderCanceledArgs vendor order).setting = some "REQUEST_DRIVER" ∧
       (orderCanceledArgs vendor order).senderId = vendor.id ∧
       (orderCanceledArgs vendor order).senderModel = "Vendor" ∧
       ∃ r store2,
         sendMessage msgSaveErr store d (orderCanceledArgs vendor order) = .ok (r, store2) ∧
         notifyOrderCanceled msgSaveErr store d vendor order = .ok (.undef, store2)) := by
  intro msgSaveErr store d vendor order
  obtain ⟨⟨r1, s1⟩, h1⟩ := sendMessage_ok msgSaveErr store d (orderReadyArgs vendor order)
  obtain ⟨⟨r2, s2⟩, h2⟩ := sendMessage_ok msgSaveErr store d (orderCanceledArgs vendor order)
  refine ⟨⟨rfl, rfl, rfl, r1, s1, h1, ?_⟩, ⟨rfl, rfl, rfl, r2, s2, h2, ?_⟩⟩
  · unfold notifyOrderReady
    rw [h1]
    rfl
  · unfold notifyOrderCanceled
    rw [h2]
    rfl

/- ------------------------------------------------------------------ -/
/- C3: vendor-affinity check looks only at orders[0]                   -/
/- ------------------------------------------------------------------ -/

/-- C3 counterexample: a driver with assigned orders 1 (vendor 10) and 2
(vendor 20) is requested for a new order of vendor 10.  Order 2's vendor
differs from the new order's vendor, so the claim demands the
vendor-mismatch refusal; but `requestDriver` compares only
`this.orders[0].vendor`, finds it equal, and goes on to dispatch and return
the persisted Message. -/
theorem requestDriver_checks_only_first_order_counterexample :
    (requestDriver
        { loadOrder := fun i => .ok { vendor := if i == 1 then 10 else 20 },
          loadVendor := fun _ => .ok { id := 10, businessName := "V", address := 40 },
          loadCustomer := fun _ => .ok { firstName := "Ann", lastName := "Bee" },
          formatAddr := fun _ => "VA",
          formatAddrList := fun _ => "CA" }
        none [] { status := "ACTIVE", orders := [1, 2] }
        { id := 5, vendor := 10, customer := 3, address := [4], tip := some 5 } =
      .ok (.message
            { messageType := "REQUEST_DRIVER", recipient := 0, recipientModel := "Driver",
              sender := 10, senderModel := "Vendor", title := "Incoming Order!",
              body := "New order from V.",
              data := { orderId := "5", messageType := "REQUEST_DRIVER", openModal := "true",
                        businessName := some "V", customerName := some "Ann B",
                        businessAddress := some "VA", customerAddress := some "CA",
                        tip := some "5" },
              deviceTokens := [] },
           [{ messageType := "REQUEST_DRIVER", recipient := 0, recipientModel := "Driver",
              sender := 10, senderModel := "Vendor", title := "Incoming Order!",
              body := "New order from V.",
              data := { orderId := "5", messageType := "REQUEST_DRIVER", openModal := "true",
                        businessName := some "V", customerName := some "Ann B",
                        businessAddress := some "VA", customerAddress := some "CA",
                        tip := some "5" },
              deviceTokens := [] }])) ∧
    (SendResult.message
        { messageType := "REQUEST_DRIVER", recipient := 0, recipientModel := "Driver",
          sender := 10, senderModel := "Vendor", title := "Incoming Order!",
          body := "New order from V.",
          data := { orderId := "5", messageType := "REQUEST_DRIVER", openModal := "true",
                    businessName := some "V", customerName := some "Ann B",
                    businessAddress := some "VA", customerAddress := some "CA",
                    tip := some "5" },
          deviceTokens := [] } ≠
      SendResult.refusal "Driver is currently delivering for another vendor." none) :=
  ⟨rfl, fun h => nomatch h⟩

/-- C3 (amended): the vendor-mismatch refusal fires exactly on the FIRST
assigned order: for every driver with a non-empty `orders` list and every
order with no driver assigned, when populating the assigned orders succeeds
and the first populated order's vendor differs from the new order's vendor,
`requestDriver` returns
`\x7berror: \x7bmessage: "Driver is currently delivering for another vendor."\x7d\x7d`
(orders beyond the first are never compared). -/
theorem requestDriver_first_order_vendor_mismatch :
    ∀ (env : ReqEnv) (msgSaveErr : Option String) (store : List MessageRec)
      (d : Driver) (order : OrderDoc) (po : PopOrder) (pos : List PopOrder),
      order.driver = none →
      loadAll env.loadOrder d.orders = .ok (po :: pos) →
      po.vendor ≠ order.vendor →
      requestDriver env msgSaveErr store d order =
        .ok (.refusal "Driver is currently delivering for another vendor." none, store) := by
  intro env msgSaveErr store d order po pos h1 h2 h3
  have hne : d.orders ≠ [] := by
    intro h
    rw [h] at h2
    simp [loadAll] at h2
  simp [requestDriver, requestDriverBody, vendorCheck, jsTryE, h1, h2, h3,
    List.length_eq_zero, hne]

theorem requestDriver_first_order_vendor_mismatch_witness :
    requestDriver
        { loadOrder := fun _ => .ok { vendor := 20 },
          loadVendor := fun _ => .ok { },
          loadCustomer := fun _ => .ok { },
          formatAddr := fun _ => "",
          formatAddrList := fun _ => "" }
        none [] { orders := [7] } { vendor := 10 } =
      .ok (.refusal "Driver is currently delivering for another vendor." none, []) :=
  requestDriver_first_order_vendor_mismatch
    { loadOrder := fun _ => .ok { vendor := 20 },
      loadVendor := fun _ => .ok { },
      loadCustomer := fun _ => .ok { },
      formatAddr := fun _ => "",
      formatAddrList := fun _ => "" }
    none [] { orders := [7] } { vendor := 10 } { vendor := 20 } []
    rfl rfl (by decide)

/- ------------------------------------------------------------------ -/
/- C2: the pricing/ledger invariant                                    -/
/- ------------------------------------------------------------------ -/

lemma map_id_filter (l : List OItem) (i : Nat) :
    (l.filter (fun it => it.id != i)).map OItem.id =
      (l.map OItem.id).filter (fun x => x != i) := by
  induction l with
  | nil => rfl
  | cons a l ih =>
    by_cases h : a.id = i
    · simp [List.filter_cons, h, ih]
    · simp [List.filter_cons, h, ih]

lemma find?_id_self (l : List OItem) (h : (l.map OItem.id).Nodup) (a : OItem)
    (ha : a ∈ l) : l.find? (fun it => it.id == a.id) = some a := by
  induction l with
  | nil => cases ha
  | cons b l ih =>
    rw [List.map_cons, List.nodup_cons] at h
    obtain ⟨hb, hl⟩ := h
    rcases List.mem_cons.mp ha with rfl | ha2
    · simp
    · have hne : b.id ≠ a.id := by
        intro he
        exact hb (he ▸ List.mem_map_of_mem OItem.id ha2)
      rw [List.find?_cons_of_neg _ (by simp [hne])]
      exact ih hl ha2

lemma sum_filter_of_find (l : List OItem) (i : Nat) (x : OItem)
    (hnd : (l.map OItem.id).Nodup)
    (hf : l.find? (fun it => it.id == i) = some x) :
    ((l.filter (fun it => it.id != i)).map OItem.price).sum =
      (l.map OItem.price).sum - x.price := by
  induction l with
  | nil => simp at hf
  | cons a l ih =>
    rw [List.map_cons, List.nodup_cons] at hnd
    obtain ⟨hb, hl⟩ := hnd
    by_cases h : a.id = i
    · rw [List.find?_cons_of_pos _ (by simp [h])] at hf
      injection hf with hx
      subst hx
      have hrest : l.filter (fun it => it.id != i) = l := by
        apply List.filter_eq_self.mpr
        intro b hbmem
        simp only [bne_iff_ne, ne_eq, decide_eq_true_eq]
        intro he
        exact hb (h ▸ he ▸ List.mem_map_of_mem OItem.id hbmem)
      rw [List.filter_cons]
      simp only [h, bne_self_eq_false, Bool.false_eq_true, if_false, hrest,
        List.map_cons, List.sum_cons]
      ring
    · rw [List.find?_cons_of_neg _ (by simp [h])] at hf
      have hrec := ih hl hf
      rw [List.filter_cons]
      have hcond : (a.id != i) = true := by simp [h]
      simp only [hcond, if_true, List.map_cons, List.sum_cons, hrec]
      ring

lemma priceSum_consistent (db : Db) (o : OrderSt) (hc : Consistent db o) :
    orderItemsPriceSum db o = o.total := by
  obtain ⟨h1, h2, h3, _⟩ := hc
  rw [orderItemsPriceSum, h1, h2, List.map_map]
  have hcong : ∀ a ∈ db.items, (itemPriceOf db ∘ OItem.id) a = OItem.price a := by
    intro a ha
    simp [Function.comp, itemPriceOf, find?_id_self db.items h3 a ha]
  rw [List.map_congr_left hcong]

lemma consistent_addOrderItem {ie oe : Option String} {db db2 : Db}
    {o o2 : OrderSt} {item : NewItem}
    (h : addOrderItem ie oe db o item = .ok (db2, o2)) (hc : Consistent db o) :
    Consistent db2 o2 := by
  unfold addOrderItem at h
  cases hcp : computeItemPrice item.menuItemPrice item.modifications with
  | error e => rw [hcp] at h; simp at h
  | ok price =>
    rw [hcp] at h
    cases ie with
    | some e => simp at h
    | none =>
      cases oe with
      | some e => simp at h
      | none =>
        simp only [Except.ok.injEq, Prod.mk.injEq] at h
        obtain ⟨hdb, ho⟩ := h
        subst hdb
        subst ho
        obtain ⟨c1, c2, c3, c4⟩ := hc
        have hnotin : db.nextId ∉ db.items.map OItem.id := by
          intro hmem
          obtain ⟨it, hit, hid⟩ := List.mem_map.mp hmem
          exact absurd (hid ▸ c4 it hit) (lt_irrefl _)
        refine ⟨?_, ?_, ?_, ?_⟩
        · simp [c1]
        · simp [c2]
        · simp [List.map_append, List.nodup_append, c3, hnotin, List.disjoint_singleton]
        · intro it hit
          rcases List.mem_append.mp hit with hold | hnew
          · exact Nat.lt_succ_of_lt (c4 it hold)
          · simp at hnew
            rw [hnew]
            exact Nat.lt_succ_self _

lemma consistent_removeOrderItem {re oe : Option String} {db db2 : Db}
    {o o2 : OrderSt} {itemId : Nat}
    (h : removeOrderItem re oe db o itemId = .ok (db2, o2)) (hc : Consistent db o) :
    Consistent db2 o2 := by
  unfold removeOrderItem at h
  cases hf : db.items.find? (fun it => it.id == itemId) with
  | none => rw [hf] at h; simp at h
  | some x =>
    rw [hf] at h
    cases re with
    | some e => simp at h
    | none =>
      cases oe with
      | some e => simp at h
      | none =>
        simp only [Except.ok.injEq, Prod.mk.injEq] at h
        obtain ⟨hdb, ho⟩ := h
        subst hdb
        subst ho
        obtain ⟨c1, c2, c3, c4⟩ := hc
        refine ⟨?_, ?_, ?_, ?_⟩
        · simp only
          rw [c1, map_id_filter]
        · simp only
          rw [c2, eq_comm]
          exact sum_filter_of_find db.items itemId x c3 hf
        · simp only
          rw [map_id_filter]
          exact c3.filter _
        · intro it hit
          exact c4 it (List.mem_of_mem_filter hit)

lemma consistent_runOps : ∀ (ops : List OrderOp) (db : Db) (o : OrderSt)
    (db2 : Db) (o2 : OrderSt),
    Consistent db o → runOps ops db o = .ok (db2, o2) → Consistent db2 o2 := by
  intro ops
  induction ops with
  | nil =>
    intro db o db2 o2 hc h
    simp only [runOps, Except.ok.injEq, Prod.mk.injEq] at h
    obtain ⟨h1, h2⟩ := h
    subst h1
    subst h2
    exact hc
  | cons op ops ih =>
    intro db o db2 o2 hc h
    cases op with
    | add ie oe item =>
      simp only [runOps] at h
      cases hstep : addOrderItem ie oe db o item with
      | error e => rw [hstep] at h; simp at h
      | ok p =>
        obtain ⟨db1, o1⟩ := p
        rw [hstep] at h
        exact ih db1 o1 db2 o2 (consistent_addOrderItem hstep hc) h
    | remove re oe itemId =>
      simp only [runOps] at h
      cases hstep : removeOrderItem re oe db o itemId with
      | error e => rw [hstep] at h; simp at h
      | ok p =>
        obtain ⟨db1, o1⟩ := p
        rw [hstep] at h
        exact ih db1 o1 db2 o2 (consistent_removeOrderItem hstep hc) h

/-- C2 counterexample: the OrderItem collection holds an item (id 1, price
5) that the order does NOT reference; the order satisfies the claimed
precondition (`total` 0 = sum of its referenced items' prices 0).
`removeOrderItem(1)` then returns successfully — `findById` finds the
foreign item, `pull` is a no-op, and the total drops to −5 while the
referenced-price sum stays 0 — so a successfully returning call breaks the
claimed invariant. -/
theorem removeOrderItem_foreign_id_breaks_total :
    (({ } : OrderSt).total =
        orderItemsPriceSum { items := [{ id := 1, price := 5 }], nextId := 2 } { }) ∧
    (runOps [.remove none none 1] { items := [{ id := 1, price := 5 }], nextId := 2 } { } =
      .ok ({ items := [], nextId := 2 },
           { orderItems := [], total := -5, disposition := "NEW" })) ∧
    (({ orderItems := [], total := -5, disposition := "NEW" } : OrderSt).total ≠
      orderItemsPriceSum { items := [], nextId := 2 }
        { orderItems := [], total := -5, disposition := "NEW" }) :=
  ⟨rfl, rfl, by decide⟩

/-- C2 (amended): for every order whose referenced OrderItems are exactly
the stored ones (same ids, in order, distinct, all below the fresh-id
counter) and whose `total` equals the sum of their prices, after any
sequence of successfully returning `addOrderItem` / `removeOrderItem` calls
the total again equals the sum of the prices of the OrderItems then
referenced, and the same consistency holds at every successful return.
(The extra hypothesis — the store holds no items foreign to the order — is
what the counterexample forces.) -/
theorem runOps_preserves_total_consistency :
    ∀ (ops : List OrderOp) (db : Db) (o : OrderSt) (db2 : Db) (o2 : OrderSt),
      Consistent db o → runOps ops db o = .ok (db2, o2) →
      o2.total = orderItemsPriceSum db2 o2 ∧ Consistent db2 o2 := by
  intro ops db o db2 o2 hc h
  have h2 := consistent_runOps ops db o db2 o2 hc h
  exact ⟨(priceSum_consistent db2 o2 h2).symm, h2⟩

theorem runOps_preserves_total_consistency_witness :
    ({ orderItems := [1], total := 4, disposition := "NEW" } : OrderSt).total =
        orderItemsPriceSum { items := [{ id := 1, price := 4 }], nextId := 2 }
          { orderItems := [1], total := 4, disposition := "NEW" } ∧
      Consistent { items := [{ id := 1, price := 4 }], nextId := 2 }
        { orderItems := [1], total := 4, disposition := "NEW" } :=
  runOps_preserves_total_consistency
    [.add none none { menuItemPrice := 10, modifications := .arr [{ options := .arr [2, 1] }] },
     .add none none { menuItemPrice := 4, modifications := .arr [] },
     .remove none none 0]
    { } { } { items := [{ id := 1, price := 4 }], nextId := 2 }
    { orderItems := [1], total := 4, disposition := "NEW" }
    (by decide) rfl

end DriveFair
